import Mathlib

/-!
Verification of the Phase-4 agent instrumentation core
(`src/phase4/src/shared/telemetry.py`, `instrumented_agent.py`, `logging.py`)
against its natural-language specification.

The Python modules are embedded shallowly:
- mutable process-wide telemetry state (counters, histogram, in-flight gauge,
  closed spans, log lines) becomes an explicit `TelState` threaded through
  every operation; metric instruments are additive event logs, matching the
  "every recording call is additive" discipline of the source;
- Python exceptions become `Except Exn`, where `Exn` carries `str(e)`;
  a raised exception leaves the already-performed state mutations in place,
  so effectful computations have type `TelState -> Except Exn A × TelState`;
- caller-supplied validators and core-logic functions are parameters of the
  embedded `execute`, exactly as they are subclass hooks in the source;
- wall-clock time (`time.time()`) is a `clock : Nat` field of the state that
  caller-supplied bodies may advance; latency is measured as a clock
  difference, mirroring `(time.time() - start_time) * 1000`.
-/

namespace AgentMesh

/-- Python runtime values, as far as the instrumentation core inspects them:
`None`, booleans, integers, strings and string-keyed dictionaries. -/
inductive PyVal where
  | none
  | bool (b : Bool)
  | int (n : Int)
  | str (s : String)
  | dict (entries : List (String × PyVal))

/-- A raised Python exception, identified by its `str(e)` description
(the only part of the exception object the embedded code consumes). -/
structure Exn where
  message : String
  deriving Repr, DecidableEq

/-- `AgentName` enum of `telemetry.py`. -/
inductive AgentName where
  | intake
  | risk
  | decision
  | orchestrator
  deriving Repr, DecidableEq

/-- The `.value` string of each `AgentName` member. -/
def AgentName.value : AgentName → String
  | .intake => "agent-intake"
  | .risk => "agent-risk"
  | .decision => "agent-decision"
  | .orchestrator => "orchestrator"

/-- `TelemetryConfig` of `telemetry.py` (defaults of the dataclass).
`sample_rate` is a float in the source; it is carried here as a percentage
`Nat` since no covered behavior reads it. -/
structure TelemetryConfig where
  service_name : String := "agent-mesh-kafka"
  service_version : String := "1.0.0"
  environment : String := "development"
  enable_console_export : Bool := true
  enable_otlp_export : Bool := false
  otlp_endpoint : String := "http://localhost:4317"
  sample_rate_percent : Nat := 100
  metrics_export_interval_ms : Nat := 60000
  deriving Repr, DecidableEq

/-- The names of the five standard instruments created by
`AgentTelemetry._create_metrics`. -/
def standardInstruments : List String :=
  ["agent.operation.duration", "agent.llm.tokens", "agent.requests",
   "agent.errors", "agent.active_operations"]

/-- The `AgentTelemetry` singleton object: identity fixed at construction
(`__init__` guarded by `_initialized`). -/
structure AgentTelemetry where
  agent_name : AgentName
  config : TelemetryConfig
  instruments : List String
  deriving Repr, DecidableEq

/-- The class-level singleton cell `AgentTelemetry._instance`. -/
structure TelemetryClassState where
  instanceCell : Option AgentTelemetry
  deriving Repr, DecidableEq

/-- Construction performed by the first `AgentTelemetry.__init__` run:
bind the agent name, resolve the config (`config or TelemetryConfig.from_env()`,
embedded as the dataclass defaults), create the standard instruments. -/
def mkAgentTelemetry (agent_name : AgentName) (config : Option TelemetryConfig) :
    AgentTelemetry :=
  { agent_name := agent_name
    config := config.getD {}
    instruments := standardInstruments }

/-- `AgentTelemetry.initialize` / `__new__` / `__init__` of `telemetry.py`:
if `_instance` is already set, `__new__` returns it and `__init__` bails out
on `_initialized`, so the call returns the existing instance unchanged; on
the first call the instance is constructed and stored. -/
def initOnce (st : TelemetryClassState) (agent_name : AgentName)
    (config : Option TelemetryConfig) : AgentTelemetry × TelemetryClassState :=
  match st.instanceCell with
  | some t => (t, st)
  | none =>
      let t := mkAgentTelemetry agent_name config
      (t, { instanceCell := some t })

/-- Status a span ends with (`Status(StatusCode.OK)` or
`Status(StatusCode.ERROR, str(e))`). -/
inductive SpanStatus where
  | ok
  | error (description : String)
  deriving Repr, DecidableEq

/-- A closed span: name, final status, recorded exception events. -/
structure SpanRecord where
  name : String
  status : SpanStatus
  events : List String
  deriving Repr, DecidableEq

/-- The process-wide mutable telemetry/logging state threaded through the
embedded operations.  Each instrument is an append-only recording log:
- `errorLog`: one entry (the `operation` tag) per `error_counter.add(1, ...)`;
- `requestLog`: one `(success, agent)` entry per `request_counter.add(1, ...)`;
- `histogramLog`: one `(duration, operation, agent)` entry per
  `latency_histogram.record(...)`;
- `activeOps` is the current value of the `agent.active_operations`
  up-down counter and `gaugeLog` records every `add` made to it;
- `spans` collects closed spans, `attrLog` span attribute writes,
  `logLines` emitted `(level, event)` log records;
- `clock` is the wall clock read by `time.time()`. -/
structure TelState where
  agentName : String
  errorLog : List String
  requestLog : List (Bool × String)
  histogramLog : List (Nat × String × String)
  activeOps : Int
  gaugeLog : List Int
  spans : List SpanRecord
  attrLog : List (String × String)
  logLines : List (String × String)
  clock : Nat
  deriving Repr, DecidableEq

/-- A fresh telemetry state for a given agent. -/
def initState (agentName : String) : TelState :=
  { agentName := agentName, errorLog := [], requestLog := [],
    histogramLog := [], activeOps := 0, gaugeLog := [], spans := [],
    attrLog := [], logLines := [], clock := 0 }

/-- Entry bookkeeping of `trace_operation`: `self.active_operations.add(1)`. -/
def spanEnter (s : TelState) : TelState :=
  { s with activeOps := s.activeOps + 1, gaugeLog := s.gaugeLog ++ [1] }

/-- Normal-exit bookkeeping inside the span: `span.set_status(Status(OK))`. -/
def closeSpanOk (opName : String) (s : TelState) : TelState :=
  { s with spans := s.spans ++ [{ name := opName, status := .ok, events := [] }] }

/-- Error-path bookkeeping of `trace_operation`:
`span.set_status(Status(ERROR, str(e)))`, `span.record_exception(e)`,
`self.error_counter.add(1, {"operation": operation_name})`. -/
def closeSpanError (opName : String) (e : Exn) (s : TelState) : TelState :=
  { s with
    spans := s.spans ++
      [{ name := opName, status := .error e.message, events := [e.message] }]
    errorLog := s.errorLog ++ [opName] }

/-- `finally` block of `trace_operation`: record the latency histogram
tagged by operation and agent, then `self.active_operations.add(-1)`. -/
def spanExit (opName : String) (startTime : Nat) (s : TelState) : TelState :=
  { s with
    histogramLog := s.histogramLog ++ [(s.clock - startTime, opName, s.agentName)]
    activeOps := s.activeOps - 1
    gaugeLog := s.gaugeLog ++ [-1] }

/-- `AgentTelemetry.trace_operation` of `telemetry.py`: increment the
in-flight gauge, note the start time, run the body; on normal completion mark
the span ok; on an escaping exception mark the span error, record the
exception event, bump the error counter, and re-raise; on every path record
the histogram and decrement the gauge. -/
def trace_operation {α : Type} (opName : String)
    (body : TelState → Except Exn α × TelState) (s : TelState) :
    Except Exn α × TelState :=
  match body (spanEnter s) with
  | (.ok a, s1) =>
      (.ok a, spanExit opName (spanEnter s).clock (closeSpanOk opName s1))
  | (.error e, s1) =>
      (.error e, spanExit opName (spanEnter s).clock (closeSpanError opName e s1))

/-- `AgentTelemetry.record_request`: add to the request counter tagged by
success flag and agent name, and attach attributes to the active span. -/
def record_request (success : Bool) (applicationId : String) (s : TelState) :
    TelState :=
  { s with
    requestLog := s.requestLog ++ [(success, s.agentName)]
    attrLog := s.attrLog ++
      [("application.id", applicationId),
       ("request.success", if success then "true" else "false")] }

/-- A structured-log emission as `execute` performs it (the embedded sink
appends the record; the standalone failable-sink model of `AgentLogger._log`
is below). -/
def loggerLine (level event : String) (s : TelState) : TelState :=
  { s with logLines := s.logLines ++ [(level, event)] }

/-- `AgentContext` dataclass of `instrumented_agent.py`. -/
structure AgentContext where
  application_id : String
  request_id : String
  trace_headers : List (String × String) := []
  metadata : List (String × PyVal) := []

/-- `AgentResult` dataclass of `instrumented_agent.py`.  `latency_ms` is a
float in the source; the embedding measures it in whole clock ticks. -/
structure AgentResult where
  success : Bool
  data : Option (List (String × PyVal)) := Option.none
  error : Option String := Option.none
  latency_ms : Nat := 0
  tokens_used : Nat := 0

/-- A business-logic payload as `_serialize_result` inspects it: it may carry
an attribute mapping (`__dict__`), may carry a `model_dump()` mapping
(Pydantic), and always has an underlying value.  A plain Python dictionary
has neither `__dict__` nor `model_dump`, so it is represented with both
mappings absent and `val` the dictionary itself. -/
structure PyObject where
  dictAttr : Option (List (String × PyVal)) := Option.none
  modelDump : Option (List (String × PyVal)) := Option.none
  val : PyVal := PyVal.none

/-- `InstrumentedAgent._serialize_result`: prefer `__dict__`, then
`model_dump()`, else wrap the value under the single key `value`. -/
def serialize_result (result : PyObject) : List (String × PyVal) :=
  match result.dictAttr with
  | some d => d
  | Option.none =>
      match result.modelDump with
      | some d => d
      | Option.none => [("value", result.val)]

/-- An input payload: the `Dict[str, Any]` handed to `execute`. -/
def Input := List (String × PyVal)

/-- String field lookup used by `_create_context`
(`input_data.get(key, fallback)`). -/
def getStrField (input : Input) (key fallback : String) : String :=
  match List.lookup key input with
  | some (PyVal.str s) => s
  | _ => fallback

/-- `InstrumentedAgent._create_context`: synthesize a context from the input
fields, with clock-derived fallback identifiers (`f"app-{time.time()}"`). -/
def create_context (input : Input) (now : Nat) : AgentContext :=
  { application_id := getStrField input "application_id" ("app-" ++ toString now)
    request_id := getStrField input "request_id" ("req-" ++ toString now) }

/-- A caller-supplied `_validate_input` hook: may consume time/state and may
either return a boolean or raise. -/
def Validator := Input → TelState → Except Exn Bool × TelState

/-- A caller-supplied `_execute_core` hook: may consume time/state and may
either return a payload or raise. -/
def Core := AgentContext → Input → TelState → Except Exn PyObject × TelState

/-- The body of the nested `validate_input` span in `execute`: run the
validator; a `False` answer raises `ValueError("Input validation failed")`;
a raised exception passes through. -/
def validateStep (validate : Validator) (input : Input) (s : TelState) :
    Except Exn Unit × TelState :=
  match validate input s with
  | (.ok true, s) => (.ok (), s)
  | (.ok false, s) => (.error { message := "Input validation failed" }, s)
  | (.error e, s) => (.error e, s)

/-- The `try:` block of `execute`: validate inside a nested traced span, run
the core logic, and on success measure latency, log, meter and build the
success envelope.  A failure anywhere leaves the block exceptionally. -/
def tryBlock (validate : Validator) (core : Core) (ctx : AgentContext)
    (input : Input) (startTime : Nat) (s : TelState) :
    Except Exn AgentResult × TelState :=
  match trace_operation "validate_input" (validateStep validate input) s with
  | (.error e, s) => (.error e, s)
  | (.ok _, s) =>
      match core ctx input s with
      | (.error e, s) => (.error e, s)
      | (.ok payload, s) =>
          let latency := s.clock - startTime
          let s := loggerLine "info" "operation_end:execute" s
          let s := record_request true ctx.application_id s
          (.ok { success := true
                 data := some (serialize_result payload)
                 error := Option.none
                 latency_ms := latency }, s)

/-- The `except Exception as e:` handler of `execute`: log the failure,
meter the failed request, and build the failure envelope with the
exception's description and the measured latency. -/
def exceptHandler (ctx : AgentContext) (startTime : Nat) (e : Exn)
    (s : TelState) : AgentResult × TelState :=
  let s := loggerLine "error" "execute_failed" s
  let s := record_request false ctx.application_id s
  ({ success := false
     data := Option.none
     error := some e.message
     latency_ms := s.clock - startTime }, s)

/-- The body `execute` runs inside its outer traced span: log the operation
start, run the `try:` block, and convert any escaping failure into a failed
result envelope via the handler.  Every branch returns `.ok`: the handler is
the containment boundary. -/
def execute_body (validate : Validator) (core : Core) (ctx : AgentContext)
    (input : Input) (startTime : Nat) (s : TelState) :
    Except Exn AgentResult × TelState :=
  match tryBlock validate core ctx input startTime
      (loggerLine "info" "operation_start:execute" s) with
  | (.ok r, s2) => (.ok r, s2)
  | (.error e, s2) =>
      (.ok (exceptHandler ctx startTime e s2).1,
       (exceptHandler ctx startTime e s2).2)

/-- `context = context if context is not None else self._create_context(...)`. -/
def resolveCtx (ctxOpt : Option AgentContext) (input : Input) (now : Nat) :
    AgentContext :=
  match ctxOpt with
  | some c => c
  | Option.none => create_context input now

/-- `InstrumentedAgent.execute`: synthesize the context when absent, note the
start time, and run the instrumented body inside the outer
`<agentName>.execute` traced span. -/
def execute (agentName : AgentName) (validate : Validator) (core : Core)
    (input : Input) (ctxOpt : Option AgentContext) (s : TelState) :
    Except Exn AgentResult × TelState :=
  trace_operation (agentName.value ++ ".execute")
    (execute_body validate core (resolveCtx ctxOpt input s.clock) input s.clock) s

/-- `true` iff the computation returned instead of raising. -/
def isOkE {α : Type} : Except Exn α → Bool
  | .ok _ => true
  | .error _ => false

/-- The underlying structlog logger of `AgentLogger`: its level methods,
keyed by name, each of which may fail when the sink fails. -/
structure StructLogger where
  methods : List (String × (String → List (String × PyVal) → Except Exn Unit))

/-- `getattr(self._logger, level)`: fetch the level method, raising
`AttributeError` when the logger has no such attribute. -/
def getattrMethod (lg : StructLogger) (level : String) :
    Except Exn (String → List (String × PyVal) → Except Exn Unit) :=
  match List.lookup level lg.methods with
  | some m => .ok m
  | Option.none => .error { message := "AttributeError: " ++ level }

/-- `AgentLogger._log` of `logging.py`: fetch the level method and call it.
The source contains no exception handling around either step. -/
def agentLoggerLog (lg : StructLogger) (level event : String)
    (kwargs : List (String × PyVal)) : Except Exn Unit :=
  match getattrMethod lg level with
  | .ok m => m event kwargs
  | .error e => .error e

/-- Modelled from the spec: the serialized trace identity carried by a
`TraceCarrier` — the (trace-id, span-id, sampling-flags) triple the W3C
trace-context wire format transports.  The OpenTelemetry
`TraceContextTextMapPropagator` the source delegates to is a third-party
library, not part of this repository's sources. -/
structure SpanContext where
  traceId : Nat
  spanId : Nat
  flags : Nat
  deriving Repr, DecidableEq

/-- A span context the propagator considers valid (non-zero identifiers
within their field widths). -/
def ValidCtx (c : SpanContext) : Prop :=
  c.traceId ≠ 0 ∧ c.traceId < 16 ^ 32 ∧ c.spanId ≠ 0 ∧ c.spanId < 16 ^ 16 ∧
    c.flags < 16 ^ 2

instance (c : SpanContext) : Decidable (ValidCtx c) := by
  unfold ValidCtx; infer_instance

/-- The lowercase hex character of a digit value. -/
def hexDigitChar (n : Nat) : Char :=
  if n < 10 then Char.ofNat (48 + n) else Char.ofNat (87 + n)

/-- Fixed-width lowercase hex rendering, most significant digit first. -/
def toHexChars : Nat → Nat → List Char
  | 0, _ => []
  | w + 1, n => toHexChars w (n / 16) ++ [hexDigitChar (n % 16)]

/-- The value of one hex character, `Option.none` on a non-hex character. -/
def hexCharVal (c : Char) : Option Nat :=
  if 48 ≤ c.toNat ∧ c.toNat ≤ 57 then some (c.toNat - 48)
  else if 97 ≤ c.toNat ∧ c.toNat ≤ 102 then some (c.toNat - 87)
  else Option.none

/-- Accumulating hex parse of a character list. -/
def parseHexAux (a : Nat) : List Char → Option Nat
  | [] => some a
  | c :: cs =>
      match hexCharVal c with
      | some v => parseHexAux (a * 16 + v) cs
      | Option.none => Option.none

/-- Parse a hex character list to its value. -/
def parseHexChars (cs : List Char) : Option Nat := parseHexAux 0 cs

/-- Consume exactly `w` hex characters from the front. -/
def takeHex (w : Nat) (cs : List Char) : Option (Nat × List Char) :=
  if (cs.take w).length = w then
    (parseHexChars (cs.take w)).map (fun n => (n, cs.drop w))
  else Option.none

/-- Consume a literal dash. -/
def expectDash : List Char → Option (List Char)
  | '-' :: cs => some cs
  | _ => Option.none

/-- Modelled from the spec: the versioned text rendering of a trace identity
(`version-traceid-spanid-flags`, the W3C `traceparent` value). -/
def traceparentChars (c : SpanContext) : List Char :=
  toHexChars 2 0 ++ '-' ::
    (toHexChars 32 c.traceId ++ '-' ::
      (toHexChars 16 c.spanId ++ '-' :: toHexChars 2 c.flags))

/-- The `traceparent` header value as a string. -/
def formatTraceparent (c : SpanContext) : String := { data := traceparentChars c }

/-- Modelled from the spec: parsing of a `traceparent` value — a 2-hex
version, then dash-separated 32-hex trace id, 16-hex span id and 2-hex
flags; malformed input or an all-zero identifier yields no parent. -/
def parseTraceparentChars (cs : List Char) : Option SpanContext := do
  let (_ver, cs) ← takeHex 2 cs
  let cs ← expectDash cs
  let (tid, cs) ← takeHex 32 cs
  let cs ← expectDash cs
  let (sid, cs) ← takeHex 16 cs
  let cs ← expectDash cs
  let (fl, cs) ← takeHex 2 cs
  if cs = [] ∧ tid ≠ 0 ∧ sid ≠ 0 then some { traceId := tid, spanId := sid, flags := fl }
  else Option.none

/-- Python dict assignment `d[k] = v` on an association list: replace the
existing binding in place or append a new one. -/
def insertKV (d : List (String × String)) (k v : String) :
    List (String × String) :=
  if d.any (fun p => p.1 = k) then
    d.map (fun p => if p.1 = k then (k, v) else p)
  else d ++ [(k, v)]

/-- Modelled from the spec: `AgentTelemetry.inject_context` /
`propagator.inject` — write the active trace identity into the carrier; with
no valid active context nothing is injected. -/
def inject_context (cur : Option SpanContext) (carrier : List (String × String)) :
    List (String × String) :=
  match cur with
  | some c => if ValidCtx c then insertKV carrier "traceparent" (formatTraceparent c) else carrier
  | Option.none => carrier

/-- Modelled from the spec: `AgentTelemetry.extract_context` /
`propagator.extract` — reconstruct a parent context from the carrier; an
absent or malformed `traceparent` yields `Option.none`, the "no parent /
fresh root trace" outcome, never a failure. -/
def extract_context (carrier : List (String × String)) : Option SpanContext :=
  match List.lookup "traceparent" carrier with
  | some v => parseTraceparentChars v.data
  | Option.none => Option.none

/-- The heap of live header dictionaries: Python dicts are mutable objects
with identity, so `prepare_headers`'s freshness and non-mutation claims are
stated against an explicit store of dictionaries addressed by index. -/
structure Heap where
  dicts : List (List (String × String))
  deriving Repr, DecidableEq

/-- `KafkaTracingMiddleware.prepare_headers`: copy the caller's
`extra_headers` (or start empty), inject the trace context into the copy,
add the `x-application-id` correlation entry when a truthy application id
is given, and return the fresh dictionary (allocated at the end of the
heap; the caller's dictionary is not written to). -/
def prepare_headers (cur : Option SpanContext) (applicationId : Option String)
    (extraRef : Option Nat) (h : Heap) : Nat × Heap :=
  let extra := match extraRef with
    | some i => (h.dicts.get? i).getD []
    | Option.none => []
  let headers := extra
  let headers := inject_context cur headers
  let headers := match applicationId with
    | some a => if a ≠ "" then insertKV headers "x-application-id" a else headers
    | Option.none => headers
  (h.dicts.length, { dicts := h.dicts ++ [headers] })

/-- `InstrumentedAgent.prepare_output_message`: build fresh trace-propagating
headers via the middleware and the outbound body embedding the execution
context's ids, the agent's name and the result fields.  Returns
`(message_value, headers_ref, heap)`. -/
def prepare_output_message (agentName : AgentName) (result : AgentResult)
    (ctx : AgentContext) (cur : Option SpanContext) (h : Heap) :
    List (String × PyVal) × Nat × Heap :=
  let hdr := prepare_headers cur (some ctx.application_id) Option.none h
  let value : List (String × PyVal) :=
    [("application_id", PyVal.str ctx.application_id),
     ("request_id", PyVal.str ctx.request_id),
     ("agent", PyVal.str agentName.value),
     ("success", PyVal.bool result.success),
     ("data", match result.data with
              | some d => PyVal.dict d
              | Option.none => PyVal.none),
     ("error", match result.error with
               | some e => PyVal.str e
               | Option.none => PyVal.none),
     ("latency_ms", PyVal.int result.latency_ms)]
  (value, hdr.1, hdr.2)

/-- The headers dictionary a `prepare_headers` reference points to. -/
def headersAt (h : Heap) (ref : Nat) : List (String × String) :=
  (h.dicts.get? ref).getD []

/-- A sequence of `trace_operation` invocations, each begun and completed. -/
def runOps (ops : List (String × (TelState → Except Exn Unit × TelState)))
    (s : TelState) : TelState :=
  match ops with
  | [] => s
  | op :: rest => runOps rest (trace_operation op.1 op.2 s).2

/-- A traced body that does not itself touch the in-flight gauge. -/
def GaugeNeutral (body : TelState → Except Exn Unit × TelState) : Prop :=
  ∀ s, ((body s).2).activeOps = s.activeOps ∧ ((body s).2).gaugeLog = s.gaugeLog

/-! Concrete fixtures used by witnesses and counterexamples. -/

/-- A validator hook that always accepts. -/
def cValidator : Validator := fun _ s => (.ok true, s)

/-- A core-logic hook that always raises with message `boom`. -/
def cRaisingCore : Core := fun _ _ s => (.error { message := "boom" }, s)

/-- The scenario input `{application_id: "APP-1"}`. -/
def cInput : Input := [("application_id", PyVal.str "APP-1")]

/-- A concrete execution context. -/
def cCtx : AgentContext := { application_id := "APP-1", request_id := "R1" }

/-- A fresh state for the risk agent. -/
def cS0 : TelState := initState "agent-risk"

/-- The state left by the failing `try:` block of the C1 witness run. -/
def cS2 : TelState :=
  (tryBlock cValidator cRaisingCore cCtx cInput 0
    (loggerLine "info" "operation_start:execute" cS0)).2

/-- A level method whose underlying sink fails. -/
def failingLevelMethod : String → List (String × PyVal) → Except Exn Unit :=
  fun _ _ => .error { message := "sink failure" }

/-- A structlog logger whose `info` method fails in the sink. -/
def failingLogger : StructLogger :=
  { methods := [("info", failingLevelMethod)] }

/-- An execution context whose application id is the empty string. -/
def emptyAppCtx : AgentContext := { application_id := "", request_id := "R1" }

/-- A concrete successful result envelope. -/
def cResult : AgentResult := { success := true }

/-! Helper lemmas about the hex wire format. -/

/-- Unfolding equation of `trace_operation`. -/
theorem trace_operation_def {α : Type} (opName : String)
    (body : TelState → Except Exn α × TelState) (s : TelState) :
    trace_operation opName body s =
      match body (spanEnter s) with
      | (.ok a, s1) =>
          (.ok a, spanExit opName (spanEnter s).clock (closeSpanOk opName s1))
      | (.error e, s1) =>
          (.error e,
            spanExit opName (spanEnter s).clock (closeSpanError opName e s1)) := by
  unfold trace_operation
  rfl

theorem length_toHexChars (w n : Nat) : (toHexChars w n).length = w := by
  induction w generalizing n with
  | zero => rfl
  | succ w ih => simp [toHexChars, ih]

theorem hexCharVal_hexDigitChar {d : Nat} (h : d < 16) :
    hexCharVal (hexDigitChar d) = some d := by
  interval_cases d <;> decide

theorem parseHexAux_append (a : Nat) (l1 l2 : List Char) :
    parseHexAux a (l1 ++ l2) =
      match parseHexAux a l1 with
      | some b => parseHexAux b l2
      | Option.none => Option.none := by
  induction l1 generalizing a with
  | nil => rfl
  | cons c cs ih =>
      cases h : hexCharVal c with
      | none => simp [parseHexAux, h]
      | some v => simp [parseHexAux, h, ih]

theorem parseHexAux_toHexChars (w a n : Nat) :
    parseHexAux a (toHexChars w n) = some (a * 16 ^ w + n % 16 ^ w) := by
  induction w generalizing a n with
  | zero => simp [toHexChars, parseHexAux, Nat.mod_one]
  | succ w ih =>
      rw [toHexChars, parseHexAux_append, ih]
      simp only [parseHexAux, hexCharVal_hexDigitChar (Nat.mod_lt n (by decide))]
      have h16 : (16 : Nat) ^ (w + 1) = 16 * 16 ^ w := by ring
      rw [h16, Nat.mod_mul]
      ring_nf

theorem parseHexChars_toHexChars (w n : Nat) :
    parseHexChars (toHexChars w n) = some (n % 16 ^ w) := by
  unfold parseHexChars
  rw [parseHexAux_toHexChars]
  simp

theorem takeHex_toHexChars (w n : Nat) (rest : List Char) :
    takeHex w (toHexChars w n ++ rest) = some (n % 16 ^ w, rest) := by
  unfold takeHex
  rw [List.take_left' (length_toHexChars w n),
    List.drop_left' (length_toHexChars w n),
    length_toHexChars, parseHexChars_toHexChars]
  simp

theorem takeHex_toHexChars_nil (w n : Nat) :
    takeHex w (toHexChars w n) = some (n % 16 ^ w, ([] : List Char)) := by
  have h := takeHex_toHexChars w n []
  simpa using h

/-- Round-trip of the traceparent wire format: parsing the rendering of a
valid span context recovers it exactly. -/
theorem parseTraceparentChars_traceparentChars (c : SpanContext)
    (h : ValidCtx c) : parseTraceparentChars (traceparentChars c) = some c := by
  obtain ⟨h1, h2, h3, h4, h5⟩ := h
  unfold parseTraceparentChars traceparentChars
  simp only [takeHex_toHexChars, takeHex_toHexChars_nil, expectDash,
    Option.bind_eq_bind, Option.some_bind]
  rw [Nat.mod_eq_of_lt h2, Nat.mod_eq_of_lt h4, Nat.mod_eq_of_lt h5]
  simp [h1, h3]

theorem lookup_map_replace_ne (k k' v : String) (hne : k ≠ k') :
    ∀ d : List (String × String),
      List.lookup k (d.map fun p => if p.1 = k' then (k', v) else p) =
        List.lookup k d := by
  intro d
  induction d with
  | nil => rfl
  | cons p ps ih =>
      obtain ⟨pk, pv⟩ := p
      by_cases hp : pk = k'
      · have hkk : (k == k') = false := beq_eq_false_iff_ne.mpr hne
        have hkp : (k == pk) = false := by rw [hp]; exact hkk
        simp [hp, List.lookup_cons, hkk, hkp, ih]
      · simp only [List.map_cons, if_neg hp, List.lookup_cons]
        cases hkp : (k == pk) <;> simp [ih]

theorem lookup_append_single_ne (k k' v : String) (hne : k ≠ k') :
    ∀ d : List (String × String),
      List.lookup k (d ++ [(k', v)]) = List.lookup k d := by
  intro d
  induction d with
  | nil =>
      have hkk : (k == k') = false := beq_eq_false_iff_ne.mpr hne
      simp [List.lookup_cons, hkk]
  | cons p ps ih =>
      obtain ⟨pk, pv⟩ := p
      simp only [List.cons_append, List.lookup_cons]
      cases hkp : (k == pk) <;> simp [ih]

/-- Looking up a key other than the assigned one is unaffected by a Python
dict assignment. -/
theorem lookup_insertKV_ne (d : List (String × String)) (k k' v : String)
    (hne : k ≠ k') : List.lookup k (insertKV d k' v) = List.lookup k d := by
  unfold insertKV
  by_cases hany : d.any (fun p => p.1 = k')
  · simp only [hany, if_true]
    exact lookup_map_replace_ne k k' v hne d
  · simp only [hany, if_false]
    exact lookup_append_single_ne k k' v hne d

theorem lookup_map_replace_self (k v : String) :
    ∀ d : List (String × String), d.any (fun p => p.1 = k) = true →
      List.lookup k (d.map fun p => if p.1 = k then (k, v) else p) = some v := by
  intro d
  induction d with
  | nil => intro hh; cases hh
  | cons p ps ih =>
      obtain ⟨pk, pv⟩ := p
      intro hany
      by_cases hp : pk = k
      · simp [hp, List.lookup_cons]
      · have hkp : (k == pk) = false := by
          simp only [beq_eq_false_iff_ne]
          exact fun hh => hp hh.symm
        simp only [List.any_cons, decide_eq_true_eq, Bool.or_eq_true] at hany
        rcases hany with hany | hany
        · exact absurd hany hp
        · simp only [List.map_cons, if_neg hp, List.lookup_cons, hkp]
          exact ih hany

theorem lookup_append_single_self (k v : String) :
    ∀ d : List (String × String), d.any (fun p => p.1 = k) = false →
      List.lookup k (d ++ [(k, v)]) = some v := by
  intro d
  induction d with
  | nil => intro; simp [List.lookup_cons]
  | cons p ps ih =>
      obtain ⟨pk, pv⟩ := p
      intro hany
      simp only [List.any_cons, Bool.or_eq_false_iff,
        decide_eq_false_iff_not] at hany
      have hkp : (k == pk) = false := by
        simp only [beq_eq_false_iff_ne]
        exact fun hh => hany.1 hh.symm
      simp only [List.cons_append, List.lookup_cons, hkp]
      exact ih (by simp [hany.2])

/-- Looking up the assigned key after a Python dict assignment yields the
assigned value. -/
theorem lookup_insertKV_self (d : List (String × String)) (k v : String) :
    List.lookup k (insertKV d k v) = some v := by
  unfold insertKV
  by_cases hany : d.any (fun p => p.1 = k)
  · simp only [hany, if_true]
    exact lookup_map_replace_self k v d hany
  · simp only [hany, if_false]
    exact lookup_append_single_self k v d (Bool.eq_false_iff.mpr hany)

/-- One traced invocation adds exactly one `+1` on entry and one `-1` on
exit to the gauge, whichever way the body completes. -/
theorem trace_operation_gauge (opName : String)
    (body : TelState → Except Exn Unit × TelState) (s : TelState)
    (hb : GaugeNeutral body) :
    ((trace_operation opName body s).2).activeOps = s.activeOps ∧
    ((trace_operation opName body s).2).gaugeLog = s.gaugeLog ++ [1, -1] := by
  rcases hbody : body (spanEnter s) with ⟨res, s1⟩
  have h1 := (hb (spanEnter s)).1
  have h2 := (hb (spanEnter s)).2
  rw [hbody] at h1 h2
  simp only [spanEnter] at h1 h2
  rw [trace_operation_def, hbody]
  cases res <;>
    simp [spanExit, closeSpanOk, closeSpanError, h1, h2, List.append_assoc]

/-- Trace injection leaves every carrier key other than `traceparent`
untouched. -/
theorem lookup_inject_ne (cur : Option SpanContext)
    (d : List (String × String)) (k : String) (hk : k ≠ "traceparent") :
    List.lookup k (inject_context cur d) = List.lookup k d := by
  cases cur with
  | none => rfl
  | some c =>
      by_cases hv : ValidCtx c
      · simp [inject_context, hv, lookup_insertKV_ne _ _ _ _ hk]
      · simp [inject_context, hv]

/-- CLAIM C3: for every sequence of traced invocations, each begun and
completed by normal return or escaping failure, the in-flight gauge gets
exactly one `+1` on entry and one `-1` on exit per invocation, so its net
value when idle equals its initial value (zero net drift), regardless of
how many invocations succeeded or failed. -/
theorem claim_C3 :
    ∀ (ops : List (String × (TelState → Except Exn Unit × TelState)))
      (s : TelState), (∀ p ∈ ops, GaugeNeutral p.2) →
      (runOps ops s).activeOps = s.activeOps ∧
      (runOps ops s).gaugeLog =
        s.gaugeLog ++ (List.replicate ops.length ([1, -1] : List Int)).join := by
  intro ops
  induction ops with
  | nil => intro s _; simp [runOps]
  | cons op rest ih =>
      intro s h
      have hop := h op (List.mem_cons_self op rest)
      have hrest := fun p hp => h p (List.mem_cons_of_mem op hp)
      have hstep := trace_operation_gauge op.1 op.2 s hop
      have hih := ih (trace_operation op.1 op.2 s).2 hrest
      constructor
      · rw [runOps, hih.1, hstep.1]
      · rw [runOps, hih.2, hstep.2]
        simp [List.replicate_succ, List.append_assoc]

/-- Witness for C3 at a concrete two-invocation sequence, one invocation
completing normally and one by an escaping failure. -/
theorem claim_C3_witness :
    (runOps [("op-ok", fun s => (.ok (), s)),
             ("op-fail", fun s => (.error { message := "boom" }, s))]
        (initState "agent-risk")).activeOps = (initState "agent-risk").activeOps ∧
    (runOps [("op-ok", fun s => (.ok (), s)),
             ("op-fail", fun s => (.error { message := "boom" }, s))]
        (initState "agent-risk")).gaugeLog =
      (initState "agent-risk").gaugeLog ++
        (List.replicate 2 ([1, -1] : List Int)).join :=
  claim_C3 _ _ (by
    intro p hp
    simp only [List.mem_cons, List.not_mem_nil, or_false] at hp
    rcases hp with hp | hp <;> subst hp <;> exact fun s => ⟨rfl, rfl⟩)

/-- CLAIM C4: when the traced body raises, `trace_operation` closes the span
with error status carrying the failure's description, records the failure as
a span event, increments the error counter tagged with the operation name,
still records the latency histogram and decrements the in-flight gauge, and
re-raises the same exception unchanged. -/
theorem claim_C4 {α : Type} (opName : String)
    (body : TelState → Except Exn α × TelState) (s s1 : TelState) (e : Exn)
    (h : body (spanEnter s) = (.error e, s1)) :
    trace_operation opName body s =
      (.error e, spanExit opName s.clock (closeSpanError opName e s1)) ∧
    (spanExit opName s.clock (closeSpanError opName e s1)).spans =
      s1.spans ++
        [{ name := opName, status := .error e.message, events := [e.message] }] ∧
    (spanExit opName s.clock (closeSpanError opName e s1)).errorLog =
      s1.errorLog ++ [opName] ∧
    (spanExit opName s.clock (closeSpanError opName e s1)).histogramLog =
      s1.histogramLog ++ [(s1.clock - s.clock, opName, s1.agentName)] ∧
    (spanExit opName s.clock (closeSpanError opName e s1)).activeOps =
      s1.activeOps - 1 ∧
    (spanExit opName s.clock (closeSpanError opName e s1)).gaugeLog =
      s1.gaugeLog ++ [-1] := by
  refine ⟨?_, by simp [spanExit, closeSpanError], by simp [spanExit, closeSpanError],
    by simp [spanExit, closeSpanError], by simp [spanExit, closeSpanError],
    by simp [spanExit, closeSpanError]⟩
  rw [trace_operation_def, h]
  rfl

/-- Witness for C4: a concrete raising body on a fresh state. -/
theorem claim_C4_witness :
    ((fun s => ((.error { message := "boom" } : Except Exn Unit), s))
        (spanEnter (initState "agent-risk")) =
      (.error { message := "boom" }, spanEnter (initState "agent-risk"))) ∧
    trace_operation "op" (fun s => ((.error { message := "boom" } : Except Exn Unit), s))
        (initState "agent-risk") =
      (.error { message := "boom" },
        spanExit "op" (initState "agent-risk").clock
          (closeSpanError "op" { message := "boom" }
            (spanEnter (initState "agent-risk")))) :=
  ⟨rfl, (claim_C4 "op" _ (initState "agent-risk") _ _ rfl).1⟩

/-- CLAIM C6: injecting the active trace context into an empty carrier and
extracting it back yields a parent context with the same trace id; an absent
or malformed carrier extracts to "no parent" (fresh root) instead of
failing. -/
theorem claim_C6 (c : SpanContext) (h : ValidCtx c) :
    (extract_context (inject_context (some c) [])).map SpanContext.traceId =
      some c.traceId ∧
    extract_context [] = Option.none ∧
    extract_context [("traceparent", "zz-malformed")] = Option.none := by
  refine ⟨?_, rfl, by decide⟩
  have hinj : inject_context (some c) [] =
      [("traceparent", formatTraceparent c)] := by
    simp [inject_context, insertKV, h]
  rw [hinj]
  have hext : extract_context [("traceparent", formatTraceparent c)] =
      parseTraceparentChars (traceparentChars c) := rfl
  rw [hext, parseTraceparentChars_traceparentChars c h]
  rfl

/-- Witness for C6 at the concrete context (1, 1, 1). -/
theorem claim_C6_witness :
    ValidCtx { traceId := 1, spanId := 1, flags := 1 } ∧
    ((extract_context (inject_context
          (some { traceId := 1, spanId := 1, flags := 1 }) [])).map
        SpanContext.traceId =
      some (1 : Nat) ∧
    extract_context [] = Option.none ∧
    extract_context [("traceparent", "zz-malformed")] = Option.none) :=
  ⟨by decide, claim_C6 { traceId := 1, spanId := 1, flags := 1 } (by decide)⟩

/-- CLAIM C7: telemetry initialization is idempotent per process — after a
first call, every subsequent call, with the same or a different agent name
or config, returns the same already-built instance and leaves the singleton
cell unchanged. -/
theorem claim_C7 (st : TelemetryClassState) (name name' : AgentName)
    (cfg cfg' : Option TelemetryConfig) :
    initOnce (initOnce st name cfg).2 name' cfg' =
      ((initOnce st name cfg).1, (initOnce st name cfg).2) := by
  cases h : st.instanceCell <;> simp [initOnce, h]

/-- CLAIM C10: `prepare_headers` never mutates the caller's `extra_headers`
dictionary: the heap slot of the argument is unchanged, the returned
reference is a fresh dictionary, whose contents are a copy of the caller's
entries with the trace carrier injected and, for a non-empty application id,
the `x-application-id` entry added. -/
theorem claim_C10 (cur : Option SpanContext) (appId : Option String) (i : Nat)
    (h : Heap) (hi : i < h.dicts.length) :
    ((prepare_headers cur appId (some i) h).2).dicts.get? i = h.dicts.get? i ∧
    (prepare_headers cur appId (some i) h).1 = h.dicts.length ∧
    headersAt (prepare_headers cur appId (some i) h).2
        (prepare_headers cur appId (some i) h).1 =
      (match appId with
       | some a =>
           if a ≠ "" then
             insertKV (inject_context cur (headersAt h i)) "x-application-id" a
           else inject_context cur (headersAt h i)
       | Option.none => inject_context cur (headersAt h i)) ∧
    ∀ k, k ≠ "traceparent" → k ≠ "x-application-id" →
      List.lookup k (headersAt (prepare_headers cur appId (some i) h).2
          (prepare_headers cur appId (some i) h).1) =
        List.lookup k (headersAt h i) := by
  refine ⟨?_, rfl, ?_, ?_⟩
  · exact List.get?_append hi
  · show headersAt { dicts := h.dicts ++ [_] } h.dicts.length = _
    unfold headersAt
    rw [List.get?_concat_length]
    rfl
  · intro k hk1 hk2
    show List.lookup k (headersAt { dicts := h.dicts ++ [_] } h.dicts.length) = _
    unfold headersAt
    rw [List.get?_concat_length]
    show List.lookup k (match appId with
      | some a =>
          if a ≠ "" then
            insertKV (inject_context cur ((h.dicts.get? i).getD []))
              "x-application-id" a
          else inject_context cur ((h.dicts.get? i).getD [])
      | Option.none => inject_context cur ((h.dicts.get? i).getD [])) = _
    cases appId with
    | none => exact lookup_inject_ne cur _ k hk1
    | some a =>
        by_cases ha : a = ""
        · simp only [ha, ne_eq, not_true_eq_false, if_false]
          exact lookup_inject_ne cur _ k hk1
        · simp only [ne_eq, ha, not_false_eq_true, if_true]
          rw [lookup_insertKV_ne _ _ _ _ hk2]
          exact lookup_inject_ne cur _ k hk1

/-- Witness for C10 at a concrete one-dictionary heap. -/
theorem claim_C10_witness :
    0 < (Heap.mk [[("k", "v")]]).dicts.length ∧
    (((prepare_headers Option.none (some "A") (some 0)
          (Heap.mk [[("k", "v")]])).2).dicts.get? 0 =
        (Heap.mk [[("k", "v")]]).dicts.get? 0 ∧
      (prepare_headers Option.none (some "A") (some 0)
          (Heap.mk [[("k", "v")]])).1 = (Heap.mk [[("k", "v")]]).dicts.length ∧
      headersAt (prepare_headers Option.none (some "A") (some 0)
            (Heap.mk [[("k", "v")]])).2
          (prepare_headers Option.none (some "A") (some 0)
            (Heap.mk [[("k", "v")]])).1 =
        (match (some "A" : Option String) with
         | some a =>
             if a ≠ "" then
               insertKV (inject_context Option.none
                   (headersAt (Heap.mk [[("k", "v")]]) 0)) "x-application-id" a
             else inject_context Option.none (headersAt (Heap.mk [[("k", "v")]]) 0)
         | Option.none =>
             inject_context Option.none (headersAt (Heap.mk [[("k", "v")]]) 0)) ∧
      ∀ k, k ≠ "traceparent" → k ≠ "x-application-id" →
        List.lookup k (headersAt (prepare_headers Option.none (some "A") (some 0)
              (Heap.mk [[("k", "v")]])).2
            (prepare_headers Option.none (some "A") (some 0)
              (Heap.mk [[("k", "v")]])).1) =
          List.lookup k (headersAt (Heap.mk [[("k", "v")]]) 0)) :=
  ⟨by decide, claim_C10 Option.none (some "A") 0 (Heap.mk [[("k", "v")]]) (by decide)⟩

/-- The body run inside the outer `execute` span always returns an envelope
(never re-raises): both branches of the containment match produce `.ok`. -/
theorem execute_body_returns (validate : Validator) (core : Core)
    (ctx : AgentContext) (input : Input) (startTime : Nat) (s : TelState) :
    isOkE (execute_body validate core ctx input startTime s).1 = true := by
  unfold execute_body
  rcases h : tryBlock validate core ctx input startTime
      (loggerLine "info" "operation_start:execute" s) with ⟨res, s2⟩
  cases res <;> rfl

/-- `execute` always returns an envelope: the traced body never raises, so
the outer span closes normally and the call returns. -/
theorem execute_returns (agentName : AgentName) (validate : Validator)
    (core : Core) (input : Input) (ctxOpt : Option AgentContext)
    (s : TelState) :
    isOkE (execute agentName validate core input ctxOpt s).1 = true := by
  unfold execute
  rw [trace_operation_def]
  rcases hb : execute_body validate core (resolveCtx ctxOpt input s.clock)
      input s.clock (spanEnter s) with ⟨res, sx⟩
  have hok := execute_body_returns validate core (resolveCtx ctxOpt input s.clock)
    input s.clock (spanEnter s)
  rw [hb] at hok
  cases res with
  | ok r => rfl
  | error e => simp [isOkE] at hok

/-- CLAIM C1: for every input, optional context, validator and core-logic
function, `execute` returns a result envelope and never propagates a
validation or business-logic failure; whenever the validated/core block
fails, the envelope carries `success = false`, the failure's description as
`error`, and the measured latency. -/
theorem claim_C1 (agentName : AgentName) (validate : Validator) (core : Core)
    (input : Input) (ctxOpt : Option AgentContext) (s : TelState)
    (ctx : AgentContext) (startTime : Nat) (s1 s2 : TelState) (e : Exn)
    (h : tryBlock validate core ctx input startTime
        (loggerLine "info" "operation_start:execute" s1) = (.error e, s2)) :
    isOkE (execute agentName validate core input ctxOpt s).1 = true ∧
    execute_body validate core ctx input startTime s1 =
      (.ok { success := false, data := Option.none, error := some e.message,
             latency_ms := s2.clock - startTime, tokens_used := 0 },
       record_request false ctx.application_id
         (loggerLine "error" "execute_failed" s2)) := by
  constructor
  · exact execute_returns agentName validate core input ctxOpt s
  · unfold execute_body
    rw [h]
    rfl

/-- Witness for C1: a concrete run whose core logic raises `boom`. -/
theorem claim_C1_witness :
    isOkE (execute .risk cValidator cRaisingCore cInput Option.none cS0).1 = true ∧
    execute_body cValidator cRaisingCore cCtx cInput 0 cS0 =
      (.ok { success := false, data := Option.none, error := some "boom",
             latency_ms := cS2.clock - 0, tokens_used := 0 },
       record_request false cCtx.application_id
         (loggerLine "error" "execute_failed" cS2)) :=
  claim_C1 .risk cValidator cRaisingCore cInput Option.none cS0 cCtx 0 cS0 cS2
    { message := "boom" } (by rfl)

/-- COUNTEREXAMPLE to C2: in the scenario — input `{application_id:"APP-1"}`,
always-true validator, raising core logic — the error counter receives no
increment at all (the exception is contained inside `execute` before it can
escape any traced span), so it does not increment by exactly 1. -/
theorem claim_C2_cex :
    ¬ ((execute .risk cValidator cRaisingCore cInput Option.none
          cS0).2.errorLog.length = cS0.errorLog.length + 1) := by
  decide

/-- AMENDED C2: in that scenario `execute` returns
`{success: false, error: m}`; the error counter is unchanged and instead the
request counter records exactly one failed request tagged with the agent. -/
theorem claim_C2_amended (m : String) (s : TelState) :
    (execute .risk cValidator (fun _ _ s1 => (.error { message := m }, s1))
        cInput Option.none s).1 =
      .ok { success := false, data := Option.none, error := some m,
            latency_ms := 0, tokens_used := 0 } ∧
    (execute .risk cValidator (fun _ _ s1 => (.error { message := m }, s1))
        cInput Option.none s).2.errorLog = s.errorLog ∧
    (execute .risk cValidator (fun _ _ s1 => (.error { message := m }, s1))
        cInput Option.none s).2.requestLog =
      s.requestLog ++ [(false, s.agentName)] := by
  unfold execute
  rw [trace_operation_def]
  simp [execute_body, tryBlock, validateStep, cValidator, trace_operation_def,
    spanEnter, spanExit, closeSpanOk, closeSpanError, exceptHandler,
    loggerLine, record_request, resolveCtx, create_context, cInput]

/-- COUNTEREXAMPLE to C5: a failure in the underlying logging sink is not
swallowed by `AgentLogger._log` — it propagates to the caller. -/
theorem claim_C5_cex :
    agentLoggerLog failingLogger "info" "event" [] =
      .error { message := "sink failure" } := rfl

/-- AMENDED C5: `AgentLogger._log` delegates directly to the underlying
level method without any exception handling, so the call returns exactly
what the sink produces — sink failures propagate unchanged. -/
theorem claim_C5_amended (lg : StructLogger) (level event : String)
    (kwargs : List (String × PyVal))
    (m : String → List (String × PyVal) → Except Exn Unit)
    (h : List.lookup level lg.methods = some m) :
    agentLoggerLog lg level event kwargs = m event kwargs := by
  unfold agentLoggerLog getattrMethod
  rw [h]

/-- Witness for amended C5 on the failing sink. -/
theorem claim_C5_witness :
    List.lookup "info" failingLogger.methods = some failingLevelMethod ∧
    agentLoggerLog failingLogger "info" "event" [] =
      failingLevelMethod "event" [] :=
  ⟨rfl, claim_C5_amended failingLogger "info" "event" [] failingLevelMethod rfl⟩

/-- CLAIM C8: the serialized `data` of a successful envelope is the
payload's own field mapping when it exposes one (`__dict__`, else
`model_dump`), otherwise the single-key mapping `{"value": payload}` — in
particular a plain dictionary payload, exposing no field mapping, is
wrapped under `value`. -/
theorem claim_C8 (payload : PyObject) (s : TelState)
    (fs : List (String × PyVal)) :
    (payload.dictAttr = some fs → serialize_result payload = fs) ∧
    (payload.dictAttr = Option.none → payload.modelDump = some fs →
      serialize_result payload = fs) ∧
    (payload.dictAttr = Option.none → payload.modelDump = Option.none →
      serialize_result payload = [("value", payload.val)]) ∧
    (∀ entries, serialize_result
        { dictAttr := Option.none, modelDump := Option.none,
          val := PyVal.dict entries } = [("value", PyVal.dict entries)]) ∧
    (execute .risk cValidator (fun _ _ s1 => (.ok payload, s1)) cInput
        Option.none s).1 =
      .ok { success := true, data := some (serialize_result payload),
            error := Option.none, latency_ms := 0, tokens_used := 0 } := by
  refine ⟨?_, ?_, ?_, ?_, ?_⟩
  · intro hd
    simp [serialize_result, hd]
  · intro hd hm
    simp [serialize_result, hd, hm]
  · intro hd hm
    simp [serialize_result, hd, hm]
  · intro entries
    rfl
  · unfold execute
    rw [trace_operation_def]
    simp [execute_body, tryBlock, validateStep, cValidator, trace_operation_def,
      spanEnter, spanExit, closeSpanOk, closeSpanError, loggerLine,
      record_request, resolveCtx, create_context, cInput]

/-- Witness for C8 on a payload exposing a field mapping. -/
theorem claim_C8_witness :
    ({ dictAttr := some [("a", PyVal.int 1)], modelDump := Option.none,
       val := PyVal.none } : PyObject).dictAttr = some [("a", PyVal.int 1)] ∧
    serialize_result
        { dictAttr := some [("a", PyVal.int 1)], modelDump := Option.none,
          val := PyVal.none } = [("a", PyVal.int 1)] ∧
    (execute .risk cValidator
        (fun _ _ s1 => (.ok { dictAttr := some [("a", PyVal.int 1)],
                              modelDump := Option.none,
                              val := PyVal.none }, s1)) cInput
        Option.none cS0).1 =
      .ok { success := true, data := some [("a", PyVal.int 1)],
            error := Option.none, latency_ms := 0, tokens_used := 0 } :=
  ⟨rfl, (claim_C8 _ cS0 [("a", PyVal.int 1)]).1 rfl,
    (claim_C8 _ cS0 [("a", PyVal.int 1)]).2.2.2.2⟩

/-- COUNTEREXAMPLE to C9: for a context whose application id is the empty
string, the outbound metadata carries no `x-application-id` entry (the
source guards the insertion with Python truthiness), refuting the claim
for every `AgentContext`. -/
theorem claim_C9_cex :
    List.lookup "x-application-id"
        (headersAt (prepare_output_message .risk cResult emptyAppCtx
            (some { traceId := 1, spanId := 1, flags := 1 }) (Heap.mk [])).2.2
          (prepare_output_message .risk cResult emptyAppCtx
            (some { traceId := 1, spanId := 1, flags := 1 }) (Heap.mk [])).2.1) =
      Option.none := by
  decide

/-- AMENDED C9: for every result and context, the outbound body contains
exactly the keys application_id, request_id, agent, success, data, error,
latency_ms; and when a valid trace context is active and the context's
application id is non-empty, the metadata carries a recoverable trace
carrier plus the `x-application-id` entry. -/
theorem claim_C9_amended (agentName : AgentName) (result : AgentResult)
    (ctx : AgentContext) (c : SpanContext) (h : Heap)
    (hc : ValidCtx c) (ha : ctx.application_id ≠ "") :
    (prepare_output_message agentName result ctx (some c) h).1.map Prod.fst =
      ["application_id", "request_id", "agent", "success", "data", "error",
       "latency_ms"] ∧
    List.lookup "x-application-id"
        (headersAt (prepare_output_message agentName result ctx (some c) h).2.2
          (prepare_output_message agentName result ctx (some c) h).2.1) =
      some ctx.application_id ∧
    extract_context
        (headersAt (prepare_output_message agentName result ctx (some c) h).2.2
          (prepare_output_message agentName result ctx (some c) h).2.1) =
      some c := by
  have hdict :
      headersAt (prepare_output_message agentName result ctx (some c) h).2.2
        (prepare_output_message agentName result ctx (some c) h).2.1 =
      insertKV (insertKV [] "traceparent" (formatTraceparent c))
        "x-application-id" ctx.application_id := by
    unfold prepare_output_message prepare_headers headersAt inject_context
    simp [List.get?_concat_length, ha, hc, insertKV]
  refine ⟨rfl, ?_, ?_⟩
  · rw [hdict]
    exact lookup_insertKV_self _ _ _
  · rw [hdict]
    unfold extract_context
    rw [lookup_insertKV_ne (insertKV [] "traceparent" (formatTraceparent c))
        "traceparent" "x-application-id" ctx.application_id (by decide),
      lookup_insertKV_self [] "traceparent" (formatTraceparent c)]
    exact parseTraceparentChars_traceparentChars c hc

/-- Witness for amended C9 at a concrete context and trace identity. -/
theorem claim_C9_witness :
    ValidCtx { traceId := 1, spanId := 1, flags := 1 } ∧
    (({ application_id := "A1", request_id := "R1" } : AgentContext).application_id ≠ "") ∧
    ((prepare_output_message .risk cResult
          { application_id := "A1", request_id := "R1" }
          (some { traceId := 1, spanId := 1, flags := 1 })
          (Heap.mk [])).1.map Prod.fst =
        ["application_id", "request_id", "agent", "success", "data", "error",
         "latency_ms"] ∧
      List.lookup "x-application-id"
          (headersAt (prepare_output_message .risk cResult
              { application_id := "A1", request_id := "R1" }
              (some { traceId := 1, spanId := 1, flags := 1 })
              (Heap.mk [])).2.2
            (prepare_output_message .risk cResult
              { application_id := "A1", request_id := "R1" }
              (some { traceId := 1, spanId := 1, flags := 1 })
              (Heap.mk [])).2.1) =
        some ({ application_id := "A1", request_id := "R1" } : AgentContext).application_id ∧
      extract_context
          (headersAt (prepare_output_message .risk cResult
              { application_id := "A1", request_id := "R1" }
              (some { traceId := 1, spanId := 1, flags := 1 })
              (Heap.mk [])).2.2
            (prepare_output_message .risk cResult
              { application_id := "A1", request_id := "R1" }
              (some { traceId := 1, spanId := 1, flags := 1 })
              (Heap.mk [])).2.1) =
        some { traceId := 1, spanId := 1, flags := 1 }) :=
  ⟨by decide, by decide,
    claim_C9_amended .risk cResult { application_id := "A1", request_id := "R1" }
      { traceId := 1, spanId := 1, flags := 1 } (Heap.mk []) (by decide) (by decide)⟩

end AgentMesh
